import Mathlib

/-!
Shallow embedding of the `customresource` Go package (handler.go): a lambda
handler that decodes a CloudFormation custom-resource lifecycle request,
invokes caller-supplied provisioning logic with panic containment, and
reports the outcome back via an HTTP PUT to the request's ResponseURL.

Go `error` values are modelled by their message `String`; fallible steps
return `Except String`.  External library calls (`encoding/json` marshal of
the reply, `http.NewRequest`) are modelled as capabilities in an `Env`
record so that their failure exits, which the source handles explicitly,
remain representable; `defaultEnv` gives their normal successful behaviour.
Writes to the handler's output sink and reports handed to the transport are
collected in result records so the side effects are observable.
-/

namespace CustomResource

/-- A JSON-document field value as far as request decoding distinguishes it:
either a JSON string (decodable into the `string` fields of `Request`) or any
other structured JSON value, kept as its opaque raw text (captured verbatim
by the `json.RawMessage` fields). -/
inductive JVal where
  | jstr (s : String)
  | jraw (raw : String)
deriving DecidableEq, Repr

/-- Raw text of a JSON value; a string value renders quoted. -/
def JVal.render : JVal → String
  | .jstr s => "\"" ++ s ++ "\""
  | .jraw raw => raw

/-- An inbound payload for `Invoke`: either bytes that fail structural JSON
parsing (with the parser's error message), or a parsed top-level object given
as its field list. -/
inductive Payload where
  | malformed (msg : String)
  | doc (fields : List (String × JVal))
deriving DecidableEq, Repr

/-- Go `type Request struct` (handler.go:39-49).  `json.RawMessage` fields
carry `json:",omitempty"`; `none` models a nil/empty raw message (omitted on
encode), `some raw` a populated one holding the raw text of a JSON value. -/
structure Request where
  RequestType : String
  ResponseURL : String
  StackId : String
  RequestId : String
  ResourceType : String
  LogicalResourceId : String
  PhysicalResourceId : String
  ResourceProperties : Option String
  OldResourceProperties : Option String
deriving DecidableEq, Repr

/-- Go `type Response struct` (handler.go:52-59).  `Data map[string]interface` is
opaque to the handler; it is modelled as an optional opaque rendering
(`none` = nil map). -/
structure Response where
  Data : Option String
  PhysicalResourceId : String
  NoEcho : Bool
deriving DecidableEq, Repr

/-- Go `type replyInput struct` (handler.go:71-79): the outbound status
report.  `Data interface` is modelled opaquely like `Response.Data`. -/
structure ReplyInput where
  Status : String
  Reason : String
  PhysicalResourceId : String
  StackId : String
  RequestId : String
  LogicalResourceId : String
  Data : Option String
deriving DecidableEq, Repr

/-- `json.Marshal(req)` for `Request`: always emits the seven string fields;
the two `omitempty` raw-message fields are emitted (with their raw text) only
when populated. -/
def encodeRequest (r : Request) : List (String × JVal) :=
  [("RequestType", JVal.jstr r.RequestType),
   ("ResponseURL", JVal.jstr r.ResponseURL),
   ("StackId", JVal.jstr r.StackId),
   ("RequestId", JVal.jstr r.RequestId),
   ("ResourceType", JVal.jstr r.ResourceType),
   ("LogicalResourceId", JVal.jstr r.LogicalResourceId),
   ("PhysicalResourceId", JVal.jstr r.PhysicalResourceId)]
  ++ (match r.ResourceProperties with
      | none => []
      | some raw => [("ResourceProperties", JVal.jraw raw)])
  ++ (match r.OldResourceProperties with
      | none => []
      | some raw => [("OldResourceProperties", JVal.jraw raw)])

/-- Field lookup as `json.Unmarshal` performs it on a decoded object: when a
key appears more than once the last occurrence wins. -/
def lookupField (fields : List (String × JVal)) (key : String) : Option JVal :=
  List.lookup key fields.reverse

/-- Decoding one `string`-typed struct field: a missing key leaves the zero
value `""`; a present non-string value is a type error. -/
def getStr (fields : List (String × JVal)) (key : String) : Except String String :=
  match lookupField fields key with
  | none => .ok ""
  | some (.jstr s) => .ok s
  | some (.jraw _) => .error ("json: cannot unmarshal value into Go struct field Request." ++ key ++ " of type string")

/-- Decoding one `json.RawMessage` field: a missing key leaves nil (`none`);
any present value is captured as its raw text. -/
def getRaw (fields : List (String × JVal)) (key : String) : Option String :=
  match lookupField fields key with
  | none => none
  | some v => some v.render

/-- `json.Unmarshal(payload, &req)` (handler.go:146): structural parse
failure or a field type error yields the decode error; otherwise the typed
`Request`. -/
def decodeRequest (p : Payload) : Except String Request :=
  match p with
  | .malformed msg => .error msg
  | .doc fields => do
    let requestType ← getStr fields "RequestType"
    let responseURL ← getStr fields "ResponseURL"
    let stackId ← getStr fields "StackId"
    let requestId ← getStr fields "RequestId"
    let resourceType ← getStr fields "ResourceType"
    let logicalResourceId ← getStr fields "LogicalResourceId"
    let physicalResourceId ← getStr fields "PhysicalResourceId"
    .ok { RequestType := requestType
          ResponseURL := responseURL
          StackId := stackId
          RequestId := requestId
          ResourceType := resourceType
          LogicalResourceId := logicalResourceId
          PhysicalResourceId := physicalResourceId
          ResourceProperties := getRaw fields "ResourceProperties"
          OldResourceProperties := getRaw fields "OldResourceProperties" }

/-- The HTTP request handed to the transport's RoundTrip. -/
structure HttpReq where
  method : String
  url : String
  contentType : String
  body : String
deriving DecidableEq, Repr

/-- The HTTP response a transport returns: status line and body. -/
structure HttpResponse where
  status : String
  body : String
deriving DecidableEq, Repr

/-- A Go value carried by a panic: either an `error` value (with its
message) or any other value (with its `%v` rendering). -/
inductive PanicVal where
  | errVal (msg : String)
  | otherVal (rendered : String)
deriving DecidableEq, Repr

/-- Behaviour of one call of the caller-supplied `Func` on a request:
return a `*Response` with nil error, return a non-nil error, or panic. -/
inductive FnBehavior where
  | ok (resp : Response)
  | err (msg : String)
  | panics (v : PanicVal)
deriving DecidableEq, Repr

/-- Go `type Handler struct` (handler.go:65-69): the provisioning function
(modelled by its behaviour per request) and the transport.  The output sink
is modelled by collecting written strings in the result records. -/
structure Handler where
  fn : Request → FnBehavior
  transport : HttpReq → Except String HttpResponse

/-- External library capabilities used by `Handler.reply`:
`json.Marshal` of the reply body and `http.NewRequest`, each of which the
source handles as fallible. -/
structure Env where
  marshalReply : ReplyInput → Except String String
  newRequest : String → String → String → Except String HttpReq

/-- A concrete serialization of the status report, standing in for the
`encoding/json` encoding of `replyInput` in the default environment. -/
def encodeReplyInput (i : ReplyInput) : String :=
  "Status=" ++ i.Status ++ ";Reason=" ++ i.Reason
    ++ ";PhysicalResourceId=" ++ i.PhysicalResourceId
    ++ ";StackId=" ++ i.StackId ++ ";RequestId=" ++ i.RequestId
    ++ ";LogicalResourceId=" ++ i.LogicalResourceId
    ++ ";Data=" ++ (match i.Data with | none => "null" | some d => d)

/-- The normal behaviour of the external libraries: marshalling a structured
reply succeeds, and `http.NewRequest` builds the request from method, URL and
body. -/
def defaultEnv : Env where
  marshalReply := fun i => .ok (encodeReplyInput i)
  newRequest := fun method url body => .ok { method := method, url := url, contentType := "", body := body }

/-- Result of the reply/report path: the error returned (`none` = nil),
the strings written to the output sink in order, and the status reports that
were handed to the transport. -/
structure ReplyOut where
  err : Option String
  output : List String
  delivered : List ReplyInput
deriving DecidableEq, Repr

/-- `Handler.reply` (handler.go:81-104): marshal the report (marshal failure
is replaced by the fixed error "unable to marshal reply"), build a PUT
request to `req.ResponseURL`, set Content-Type, run the transport; on a
transport response write the status line (with newline, via Fprintln) and
the body to the output sink and return nil. -/
def Handler.reply (h : Handler) (env : Env) (req : Request) (input : ReplyInput) : ReplyOut :=
  match env.marshalReply input with
  | .error _ => { err := some "unable to marshal reply", output := [], delivered := [] }
  | .ok data =>
    match env.newRequest "PUT" req.ResponseURL data with
    | .error e => { err := some e, output := [], delivered := [] }
    | .ok httpReq =>
      let httpReq := { httpReq with contentType := "application/json" }
      match h.transport httpReq with
      | .error e => { err := some e, output := [], delivered := [input] }
      | .ok httpResp =>
        { err := none
          output := [httpResp.status ++ "\n", httpResp.body]
          delivered := [input] }

/-- The status report built by `Handler.replySuccess` (handler.go:108-115). -/
def successInput (req : Request) (resp : Response) : ReplyInput :=
  { Status := "SUCCESS"
    Reason := ""
    PhysicalResourceId := resp.PhysicalResourceId
    StackId := req.StackId
    RequestId := req.RequestId
    LogicalResourceId := req.LogicalResourceId
    Data := resp.Data }

/-- The status report built by `Handler.replyFailure` (handler.go:121-124):
only Status and Reason are set, every other field keeps its zero value. -/
def failureInput (reason : String) : ReplyInput :=
  { Status := "FAILED"
    Reason := reason
    PhysicalResourceId := ""
    StackId := ""
    RequestId := ""
    LogicalResourceId := ""
    Data := none }

/-- `Handler.replySuccess` (handler.go:106-117): progress line then reply
with the success report. -/
def Handler.replySuccess (h : Handler) (env : Env) (req : Request) (resp : Response) : ReplyOut :=
  let line := req.LogicalResourceId ++ ": " ++ req.RequestType
    ++ " succeeded. PhysicalResourceId=" ++ resp.PhysicalResourceId ++ "\n"
  let r := h.reply env req (successInput req resp)
  { r with output := line :: r.output }

/-- `Handler.replyFailure` (handler.go:119-126): progress line then reply
with the failure report. -/
def Handler.replyFailure (h : Handler) (env : Env) (req : Request) (reason : String) : ReplyOut :=
  let line := req.LogicalResourceId ++ ": " ++ req.RequestType
    ++ " failed - " ++ reason ++ "\n"
  let r := h.reply env req (failureInput reason)
  { r with output := line :: r.output }

/-- `Handler.safeInvoke` (handler.go:128-141): run the provisioning function;
a recovered panic becomes the error value it carried, or a synthetic
"recovered from %v" error. -/
def Handler.safeInvoke (h : Handler) (req : Request) : Except String Response :=
  match h.fn req with
  | .ok resp => .ok resp
  | .err msg => .error msg
  | .panics (.errVal msg) => .error msg
  | .panics (.otherVal rendered) => .error ("recovered from " ++ rendered)

/-- Result of one `Invoke`: the returned error (the payload result is always
nil), output-sink writes, reports handed to the transport, and whether the
provisioning function was reached. -/
structure InvokeOut where
  ret : Option String
  output : List String
  delivered : List ReplyInput
  fnCalled : Bool
deriving DecidableEq, Repr

/-- `Handler.Invoke` (handler.go:144-157): decode the payload (a decode error
returns immediately, before the provisioning function and before any
callback), then safeInvoke, then replyFailure on error else replySuccess,
returning the reply step's error as Invoke's own error. -/
def Handler.Invoke (h : Handler) (env : Env) (p : Payload) : InvokeOut :=
  match decodeRequest p with
  | .error e => { ret := some e, output := [], delivered := [], fnCalled := false }
  | .ok req =>
    match h.safeInvoke req with
    | .error e =>
      let r := h.replyFailure env req e
      { ret := r.err, output := r.output, delivered := r.delivered, fnCalled := true }
    | .ok resp =>
      let r := h.replySuccess env req resp
      { ret := r.err, output := r.output, delivered := r.delivered, fnCalled := true }

/-! Configuration model: Go `options`, `WithOutput`, `WithTransport`, `New`
(handler.go:159-200).  `io.Writer` and `http.RoundTripper` values are
modelled opaquely; `Option` wraps them so that Go's nil is representable as
`none`. -/

/-- An `io.Writer` capability: the stock discarding sink or a caller-supplied
writer. -/
inductive Writer where
  | discard
  | writer (id : Nat)
deriving DecidableEq, Repr

/-- An `http.RoundTripper` capability: the standard default transport or a
caller-supplied one. -/
inductive Transport where
  | defaultTransport
  | custom (id : Nat)
deriving DecidableEq, Repr

/-- Go `type options struct` (handler.go:159-162); `none` models a nil
interface value. -/
structure GoOptions where
  output : Option Writer
  transport : Option Transport
deriving DecidableEq, Repr

/-- `WithOutput` (handler.go:168-174): overrides the sink only when the
argument is non-nil. -/
def WithOutput (w : Option Writer) : GoOptions → GoOptions :=
  fun o => match w with
    | none => o
    | some _ => { o with output := w }

/-- `WithTransport` (handler.go:177-183): overrides the transport only when
the argument is non-nil. -/
def WithTransport (t : Option Transport) : GoOptions → GoOptions :=
  fun o => match t with
    | none => o
    | some _ => { o with transport := t }

/-- The defaults `New` starts from (handler.go:187-190): discard sink,
standard default transport. -/
def defaultOptions : GoOptions :=
  { output := some Writer.discard, transport := some Transport.defaultTransport }

/-- `New` (handler.go:186-200) restricted to the configuration it computes:
applies the options in order over the defaults; the resulting `output` and
`transport` are the fields stored in the constructed `Handler`. -/
def New (opts : List (GoOptions → GoOptions)) : GoOptions :=
  opts.foldl (fun acc opt => opt acc) defaultOptions

/-! Theorems -/

/-- Every report the reply step hands to the transport is exactly the report
it was asked to deliver. -/
lemma reply_delivered_eq (h : Handler) (env : Env) (req : Request) (input : ReplyInput) :
    ∀ r ∈ (h.reply env req input).delivered, r = input := by
  intro r hr
  cases hm : env.marshalReply input with
  | error e => simp [Handler.reply, hm] at hr
  | ok data =>
    cases hn : env.newRequest "PUT" req.ResponseURL data with
    | error e => simp [Handler.reply, hm, hn] at hr
    | ok httpReq =>
      cases ht : h.transport { httpReq with contentType := "application/json" } with
      | error e => simp [Handler.reply, hm, hn, ht] at hr; exact hr
      | ok resp => simp [Handler.reply, hm, hn, ht] at hr; exact hr

/-- C9: encoding a request to the wire document and decoding it back yields
the original request in every field. -/
theorem decode_encode_roundtrip (r : Request) :
    decodeRequest (Payload.doc (encodeRequest r)) = .ok r := by
  obtain ⟨rt, ru, si, ri, rty, li, pi, rp, orp⟩ := r
  cases rp <;> cases orp <;> rfl

/-- C1: for a well-formed payload and a provisioning function returning a
successful outcome, when delivery succeeds Invoke returns no error and the
delivered report has Status SUCCESS, PhysicalResourceId and Data from the
outcome, and StackId, RequestId, LogicalResourceId echoed from the
request. -/
theorem invoke_success_report (p : Payload) (req : Request) (resp : Response)
    (tr : HttpReq → Except String HttpResponse) (hresp : HttpResponse)
    (hdec : decodeRequest p = .ok req)
    (htr : tr { method := "PUT", url := req.ResponseURL, contentType := "application/json",
                body := encodeReplyInput (successInput req resp) } = .ok hresp) :
    ((Handler.mk (fun _ => .ok resp) tr).Invoke defaultEnv p).ret = none ∧
    ((Handler.mk (fun _ => .ok resp) tr).Invoke defaultEnv p).delivered =
      [{ Status := "SUCCESS", Reason := "",
         PhysicalResourceId := resp.PhysicalResourceId,
         StackId := req.StackId, RequestId := req.RequestId,
         LogicalResourceId := req.LogicalResourceId, Data := resp.Data }] := by
  simp only [successInput] at htr
  simp [Handler.Invoke, hdec, Handler.safeInvoke, Handler.replySuccess,
        Handler.reply, defaultEnv, htr, successInput]

/-- C2: for a well-formed payload and a provisioning function returning an
error, when delivery succeeds Invoke returns no error (the provisioning
error is absorbed) and the delivered report has Status FAILED and Reason
equal to the error's message. -/
theorem invoke_provisioning_error_report (p : Payload) (req : Request) (m : String)
    (tr : HttpReq → Except String HttpResponse) (hresp : HttpResponse)
    (hdec : decodeRequest p = .ok req)
    (htr : tr { method := "PUT", url := req.ResponseURL, contentType := "application/json",
                body := encodeReplyInput (failureInput m) } = .ok hresp) :
    ((Handler.mk (fun _ => .err m) tr).Invoke defaultEnv p).ret = none ∧
    ((Handler.mk (fun _ => .err m) tr).Invoke defaultEnv p).delivered =
      [{ Status := "FAILED", Reason := m, PhysicalResourceId := "",
         StackId := "", RequestId := "", LogicalResourceId := "", Data := none }] := by
  simp only [failureInput] at htr
  simp [Handler.Invoke, hdec, Handler.safeInvoke, Handler.replyFailure,
        Handler.reply, defaultEnv, htr, failureInput]

/-- C3: a panic in the provisioning function is contained and converted to a
normal error: an error panic value is used verbatim, any other value yields
"recovered from " followed by its rendering; the dispatch then delivers a
FAILED report with that message as Reason and returns no error when delivery
succeeds. -/
theorem invoke_panic_contained (p : Payload) (req : Request) (v : PanicVal)
    (tr : HttpReq → Except String HttpResponse) (hresp : HttpResponse)
    (hdec : decodeRequest p = .ok req)
    (htr : tr { method := "PUT", url := req.ResponseURL, contentType := "application/json",
                body := encodeReplyInput (failureInput
                  (match v with
                   | .errVal m => m
                   | .otherVal s => "recovered from " ++ s)) } = .ok hresp) :
    (Handler.mk (fun _ => .panics v) tr).safeInvoke req =
      .error (match v with
              | .errVal m => m
              | .otherVal s => "recovered from " ++ s) ∧
    ((Handler.mk (fun _ => .panics v) tr).Invoke defaultEnv p).ret = none ∧
    ((Handler.mk (fun _ => .panics v) tr).Invoke defaultEnv p).delivered =
      [{ Status := "FAILED",
         Reason := (match v with
                    | .errVal m => m
                    | .otherVal s => "recovered from " ++ s),
         PhysicalResourceId := "", StackId := "", RequestId := "",
         LogicalResourceId := "", Data := none }] := by
  cases v with
  | errVal m =>
    refine ⟨rfl, ?_⟩
    simp only [failureInput] at htr
    simp [Handler.Invoke, hdec, Handler.safeInvoke, Handler.replyFailure,
          Handler.reply, defaultEnv, htr, failureInput]
  | otherVal s =>
    refine ⟨rfl, ?_⟩
    simp only [failureInput] at htr
    simp [Handler.Invoke, hdec, Handler.safeInvoke, Handler.replyFailure,
          Handler.reply, defaultEnv, htr, failureInput]

/-! Concrete fixtures used by the witness theorems. -/

/-- A concrete well-formed lifecycle request. -/
def reqW : Request :=
  { RequestType := "Create"
    ResponseURL := "http://localhost"
    StackId := "stack-1"
    RequestId := "req-1"
    ResourceType := "Custom::Thing"
    LogicalResourceId := "Resource"
    PhysicalResourceId := ""
    ResourceProperties := none
    OldResourceProperties := none }

/-- A concrete successful provisioning outcome, as in the repository's own
test: PhysicalResourceId "blah". -/
def respW : Response := { Data := none, PhysicalResourceId := "blah", NoEcho := false }

/-- The wire payload encoding `reqW`. -/
def payloadW : Payload := Payload.doc (encodeRequest reqW)

/-- A transport that always answers 200 OK with an empty body. -/
def trOk : HttpReq → Except String HttpResponse :=
  fun _ => .ok { status := "200 OK", body := "" }

/-- A transport that always fails, as with a refused connection. -/
def trFail : HttpReq → Except String HttpResponse :=
  fun _ => .error "connection refused"

/-- A transport that always answers 500 with a diagnostic body. -/
def tr500 : HttpReq → Except String HttpResponse :=
  fun _ => .ok { status := "500 Internal Server Error", body := "failure" }

/-- Handler whose provisioning function returns the error "boom". -/
def handlerBoom : Handler := Handler.mk (fun _ => .err "boom") trOk

/-- Handler whose provisioning function returns an error with empty
message. -/
def handlerEmptyErr : Handler := Handler.mk (fun _ => .err "") trOk

/-- Witness for C1 at the concrete request, outcome "blah" and a 200
transport. -/
theorem invoke_success_report_witness :
    decodeRequest payloadW = Except.ok reqW ∧
    trOk { method := "PUT", url := reqW.ResponseURL, contentType := "application/json",
           body := encodeReplyInput (successInput reqW respW) } =
      Except.ok { status := "200 OK", body := "" } ∧
    ((Handler.mk (fun _ => .ok respW) trOk).Invoke defaultEnv payloadW).ret = none ∧
    ((Handler.mk (fun _ => .ok respW) trOk).Invoke defaultEnv payloadW).delivered =
      [{ Status := "SUCCESS", Reason := "", PhysicalResourceId := "blah",
         StackId := "stack-1", RequestId := "req-1",
         LogicalResourceId := "Resource", Data := none }] := by
  refine ⟨by rfl, by rfl, ?_, ?_⟩
  · exact (invoke_success_report payloadW reqW respW trOk { status := "200 OK", body := "" }
      (by rfl) (by rfl)).1
  · exact (invoke_success_report payloadW reqW respW trOk { status := "200 OK", body := "" }
      (by rfl) (by rfl)).2

/-- Witness for C2 at the concrete request, error "boom" and a 200
transport. -/
theorem invoke_provisioning_error_report_witness :
    decodeRequest payloadW = Except.ok reqW ∧
    trOk { method := "PUT", url := reqW.ResponseURL, contentType := "application/json",
           body := encodeReplyInput (failureInput "boom") } =
      Except.ok { status := "200 OK", body := "" } ∧
    (handlerBoom.Invoke defaultEnv payloadW).ret = none ∧
    (handlerBoom.Invoke defaultEnv payloadW).delivered =
      [{ Status := "FAILED", Reason := "boom", PhysicalResourceId := "",
         StackId := "", RequestId := "", LogicalResourceId := "", Data := none }] := by
  refine ⟨by rfl, by rfl, ?_, ?_⟩
  · exact (invoke_provisioning_error_report payloadW reqW "boom" trOk
      { status := "200 OK", body := "" } (by rfl) (by rfl)).1
  · exact (invoke_provisioning_error_report payloadW reqW "boom" trOk
      { status := "200 OK", body := "" } (by rfl) (by rfl)).2

/-- Witness for C3 at a panic carrying a non-error value, rendered
"assignment to entry in nil map" as in the repository's own test. -/
theorem invoke_panic_contained_witness :
    decodeRequest payloadW = Except.ok reqW ∧
    trOk { method := "PUT", url := reqW.ResponseURL, contentType := "application/json",
           body := encodeReplyInput (failureInput
             "recovered from assignment to entry in nil map") } =
      Except.ok { status := "200 OK", body := "" } ∧
    ((Handler.mk (fun _ => .panics (.otherVal "assignment to entry in nil map")) trOk).safeInvoke reqW =
      Except.error "recovered from assignment to entry in nil map") ∧
    ((Handler.mk (fun _ => .panics (.otherVal "assignment to entry in nil map")) trOk).Invoke
        defaultEnv payloadW).ret = none ∧
    ((Handler.mk (fun _ => .panics (.otherVal "assignment to entry in nil map")) trOk).Invoke
        defaultEnv payloadW).delivered =
      [{ Status := "FAILED", Reason := "recovered from assignment to entry in nil map",
         PhysicalResourceId := "", StackId := "", RequestId := "",
         LogicalResourceId := "", Data := none }] := by
  refine ⟨by rfl, by rfl, ?_, ?_, ?_⟩
  · exact (invoke_panic_contained payloadW reqW (.otherVal "assignment to entry in nil map")
      trOk { status := "200 OK", body := "" } (by rfl) (by rfl)).1
  · exact (invoke_panic_contained payloadW reqW (.otherVal "assignment to entry in nil map")
      trOk { status := "200 OK", body := "" } (by rfl) (by rfl)).2.1
  · exact (invoke_panic_contained payloadW reqW (.otherVal "assignment to entry in nil map")
      trOk { status := "200 OK", body := "" } (by rfl) (by rfl)).2.2

/-- C4: a payload that fails to decode makes Invoke return the decode error
immediately; the provisioning function is never reached and no report is
handed to the transport. -/
theorem invoke_decode_error (h : Handler) (env : Env) (p : Payload) (e : String)
    (hdec : decodeRequest p = .error e) :
    h.Invoke env p = { ret := some e, output := [], delivered := [], fnCalled := false } := by
  simp [Handler.Invoke, hdec]

/-- Witness for C4 at a malformed payload. -/
theorem invoke_decode_error_witness :
    decodeRequest (Payload.malformed "unexpected end of JSON input") =
      Except.error "unexpected end of JSON input" ∧
    (Handler.mk (fun _ => .ok respW) trOk).Invoke defaultEnv
        (Payload.malformed "unexpected end of JSON input") =
      { ret := some "unexpected end of JSON input", output := [], delivered := [],
        fnCalled := false } :=
  ⟨rfl, invoke_decode_error (Handler.mk (fun _ => .ok respW) trOk) defaultEnv
    (Payload.malformed "unexpected end of JSON input") "unexpected end of JSON input" rfl⟩

/-- C5: when the reply step fails (transport error, serialization error, or
request-construction error), Invoke returns that delivery-layer error even
though the provisioning function succeeded. -/
theorem invoke_delivery_error_surfaced (h : Handler) (env : Env) (p : Payload)
    (req : Request) (resp : Response) (e : String)
    (hdec : decodeRequest p = .ok req)
    (hfn : h.fn req = .ok resp)
    (hfail : (h.reply env req (successInput req resp)).err = some e) :
    (h.Invoke env p).ret = some e := by
  simp [Handler.Invoke, hdec, Handler.safeInvoke, hfn, Handler.replySuccess, hfail]

/-- Witness for C5: a succeeding provisioning function with a refused
connection at delivery. -/
theorem invoke_delivery_error_surfaced_witness :
    decodeRequest payloadW = Except.ok reqW ∧
    (Handler.mk (fun _ => .ok respW) trFail).fn reqW = .ok respW ∧
    ((Handler.mk (fun _ => .ok respW) trFail).reply defaultEnv reqW
        (successInput reqW respW)).err = some "connection refused" ∧
    ((Handler.mk (fun _ => .ok respW) trFail).Invoke defaultEnv payloadW).ret =
      some "connection refused" :=
  ⟨rfl, rfl, rfl,
   invoke_delivery_error_surfaced (Handler.mk (fun _ => .ok respW) trFail) defaultEnv
     payloadW reqW respW "connection refused" rfl rfl rfl⟩

/-- C6: whenever the transport returns a response, whatever its HTTP status,
the reply step returns no error and copies the status line (with newline)
and body to the output sink. -/
theorem reply_http_response_no_error (h : Handler) (env : Env) (req : Request)
    (input : ReplyInput) (data : String) (hreq : HttpReq) (resp : HttpResponse)
    (hm : env.marshalReply input = .ok data)
    (hn : env.newRequest "PUT" req.ResponseURL data = .ok hreq)
    (ht : h.transport { hreq with contentType := "application/json" } = .ok resp) :
    h.reply env req input =
      { err := none, output := [resp.status ++ "\n", resp.body], delivered := [input] } := by
  simp [Handler.reply, hm, hn, ht]

/-- Witness for C6 with a 500 response: still no error, status line and body
on the sink. -/
theorem reply_http_response_no_error_witness :
    defaultEnv.marshalReply (successInput reqW respW) =
      Except.ok (encodeReplyInput (successInput reqW respW)) ∧
    defaultEnv.newRequest "PUT" reqW.ResponseURL (encodeReplyInput (successInput reqW respW)) =
      Except.ok { method := "PUT", url := reqW.ResponseURL, contentType := "",
                  body := encodeReplyInput (successInput reqW respW) } ∧
    (Handler.mk (fun _ => .ok respW) tr500).transport
        { method := "PUT", url := reqW.ResponseURL, contentType := "application/json",
          body := encodeReplyInput (successInput reqW respW) } =
      Except.ok { status := "500 Internal Server Error", body := "failure" } ∧
    (Handler.mk (fun _ => .ok respW) tr500).reply defaultEnv reqW (successInput reqW respW) =
      { err := none, output := ["500 Internal Server Error\n", "failure"],
        delivered := [successInput reqW respW] } :=
  ⟨rfl, rfl, rfl,
   reply_http_response_no_error (Handler.mk (fun _ => .ok respW) tr500) defaultEnv reqW
     (successInput reqW respW) (encodeReplyInput (successInput reqW respW))
     { method := "PUT", url := reqW.ResponseURL, contentType := "",
       body := encodeReplyInput (successInput reqW respW) }
     { status := "500 Internal Server Error", body := "failure" } rfl rfl rfl⟩

/-- C7: every report delivered by the failure path carries only Status FAILED
and the reason; PhysicalResourceId, StackId, RequestId, LogicalResourceId
(and Data) stay at their zero values. -/
theorem replyFailure_only_status_reason (h : Handler) (env : Env) (req : Request)
    (reason : String) :
    ∀ r ∈ (h.replyFailure env req reason).delivered,
      r.Status = "FAILED" ∧ r.Reason = reason ∧ r.PhysicalResourceId = "" ∧
      r.StackId = "" ∧ r.RequestId = "" ∧ r.LogicalResourceId = "" ∧ r.Data = none := by
  intro r hr
  have hd : (h.replyFailure env req reason).delivered =
      (h.reply env req (failureInput reason)).delivered := by
    simp [Handler.replyFailure]
  rw [hd] at hr
  have hre := reply_delivered_eq h env req (failureInput reason) r hr
  subst hre
  simp [failureInput]

/-- Witness for C7 at the concrete failure report for reason "boom". -/
theorem replyFailure_only_status_reason_witness :
    failureInput "boom" ∈ (handlerBoom.replyFailure defaultEnv reqW "boom").delivered ∧
    ((failureInput "boom").Status = "FAILED" ∧ (failureInput "boom").Reason = "boom" ∧
     (failureInput "boom").PhysicalResourceId = "" ∧ (failureInput "boom").StackId = "" ∧
     (failureInput "boom").RequestId = "" ∧ (failureInput "boom").LogicalResourceId = "" ∧
     (failureInput "boom").Data = none) := by
  have hmem : failureInput "boom" ∈ (handlerBoom.replyFailure defaultEnv reqW "boom").delivered := by
    exact List.mem_singleton.mpr rfl
  exact ⟨hmem, replyFailure_only_status_reason handlerBoom defaultEnv reqW "boom"
    (failureInput "boom") hmem⟩

/-- C8 counterexample: a provisioning function returning an error whose
message is empty makes Invoke deliver a report with Status FAILED and an
empty Reason, so "Reason is non-empty whenever Status = FAILED" fails as
stated. -/
theorem invoke_failed_empty_reason_cex :
    (handlerEmptyErr.Invoke defaultEnv payloadW).delivered =
      [{ Status := "FAILED", Reason := "", PhysicalResourceId := "",
         StackId := "", RequestId := "", LogicalResourceId := "", Data := none }] ∧
    ¬ (∀ r ∈ (handlerEmptyErr.Invoke defaultEnv payloadW).delivered,
        r.Status = "FAILED" → r.Reason ≠ "") := by
  constructor
  · rfl
  · intro hall
    exact hall { Status := "FAILED", Reason := "", PhysicalResourceId := "",
                 StackId := "", RequestId := "", LogicalResourceId := "", Data := none }
      (List.mem_singleton.mpr rfl) rfl rfl

/-- C8 amended: every delivered report has non-empty Reason whenever its
Status is FAILED, provided every error the provisioning step produces
(returned error or contained panic) has a non-empty message; the code does
not itself enforce this when the provisioning error's message is empty. -/
theorem invoke_failed_reason_nonempty (h : Handler) (env : Env) (p : Payload)
    (hmsg : ∀ req e, h.safeInvoke req = .error e → e ≠ "") :
    ∀ r ∈ (h.Invoke env p).delivered, r.Status = "FAILED" → r.Reason ≠ "" := by
  intro r hr hst
  cases hdec : decodeRequest p with
  | error e => simp [Handler.Invoke, hdec] at hr
  | ok req =>
    cases hsi : h.safeInvoke req with
    | error e =>
      have hd : (h.Invoke env p).delivered =
          (h.reply env req (failureInput e)).delivered := by
        simp [Handler.Invoke, hdec, hsi, Handler.replyFailure]
      rw [hd] at hr
      have hre := reply_delivered_eq h env req (failureInput e) r hr
      subst hre
      exact hmsg req e hsi
    | ok resp =>
      have hd : (h.Invoke env p).delivered =
          (h.reply env req (successInput req resp)).delivered := by
        simp [Handler.Invoke, hdec, hsi, Handler.replySuccess]
      rw [hd] at hr
      have hre := reply_delivered_eq h env req (successInput req resp) r hr
      subst hre
      simp [successInput] at hst

/-- Witness for the amended C8 at the "boom" handler: the hypothesis holds
and the delivered FAILED report's Reason is non-empty. -/
theorem invoke_failed_reason_nonempty_witness :
    (∀ req e, handlerBoom.safeInvoke req = .error e → e ≠ "") ∧
    failureInput "boom" ∈ (handlerBoom.Invoke defaultEnv payloadW).delivered ∧
    (failureInput "boom").Status = "FAILED" ∧ (failureInput "boom").Reason ≠ "" := by
  have hmsg : ∀ req e, handlerBoom.safeInvoke req = .error e → e ≠ "" := by
    intro req e he
    rw [show handlerBoom.safeInvoke req = Except.error "boom" from rfl] at he
    injection he with h2
    rw [← h2]
    decide
  have hmem : failureInput "boom" ∈ (handlerBoom.Invoke defaultEnv payloadW).delivered := by
    exact List.mem_singleton.mpr rfl
  exact ⟨hmsg, hmem, rfl,
    invoke_failed_reason_nonempty handlerBoom defaultEnv payloadW hmsg
      (failureInput "boom") hmem rfl⟩

/-- Options of the shape produced by `WithOutput` or `WithTransport`
preserve non-nil output and transport. -/
lemma option_preserves_some (o : GoOptions → GoOptions) (g : GoOptions)
    (ho : (∃ w, o = WithOutput w) ∨ (∃ t, o = WithTransport t))
    (h1 : g.output.isSome) (h2 : g.transport.isSome) :
    (o g).output.isSome ∧ (o g).transport.isSome := by
  rcases ho with ⟨w, rfl⟩ | ⟨t, rfl⟩
  · cases w <;> simp [WithOutput, h1, h2]
  · cases t <;> simp [WithTransport, h1, h2]

/-- Folding any list of `WithOutput`/`WithTransport` options over a
configuration with non-nil fields keeps both fields non-nil. -/
lemma foldl_options_some (opts : List (GoOptions → GoOptions)) (g : GoOptions)
    (hops : ∀ o ∈ opts, (∃ w, o = WithOutput w) ∨ (∃ t, o = WithTransport t))
    (h1 : g.output.isSome) (h2 : g.transport.isSome) :
    (opts.foldl (fun acc opt => opt acc) g).output.isSome ∧
    (opts.foldl (fun acc opt => opt acc) g).transport.isSome := by
  induction opts generalizing g with
  | nil => exact ⟨h1, h2⟩
  | cons o rest ih =>
    have hstep := option_preserves_some o g (hops o (List.mem_cons_self o rest)) h1 h2
    exact ih (o g) (fun o2 ho2 => hops o2 (List.mem_cons_of_mem o ho2)) hstep.1 hstep.2

/-- C10: for every sequence of `WithOutput`/`WithTransport` options, the
configuration `New` builds has a non-nil output sink and a non-nil
transport; moreover `WithOutput nil` and `WithTransport nil` are no-ops, so
nil arguments leave the defaults in place. -/
theorem new_never_nil (opts : List (GoOptions → GoOptions))
    (hops : ∀ o ∈ opts, (∃ w, o = WithOutput w) ∨ (∃ t, o = WithTransport t)) :
    (New opts).output.isSome ∧ (New opts).transport.isSome ∧
    WithOutput none = (fun o => o) ∧ WithTransport none = (fun o => o) := by
  have h := foldl_options_some opts defaultOptions hops (by simp [defaultOptions])
    (by simp [defaultOptions])
  exact ⟨h.1, h.2, rfl, rfl⟩

/-- Witness for C10 at the list passing nil to both overrides: the defaults
survive. -/
theorem new_never_nil_witness :
    (∀ o ∈ [WithOutput none, WithTransport none],
        (∃ w, o = WithOutput w) ∨ (∃ t, o = WithTransport t)) ∧
    (New [WithOutput none, WithTransport none]).output.isSome ∧
    (New [WithOutput none, WithTransport none]).transport.isSome ∧
    New [WithOutput none, WithTransport none] = defaultOptions := by
  have hops : ∀ o ∈ [WithOutput none, WithTransport none],
      (∃ w, o = WithOutput w) ∨ (∃ t, o = WithTransport t) := by
    intro o ho
    rcases List.mem_cons.mp ho with rfl | ho2
    · exact Or.inl ⟨none, rfl⟩
    · rcases List.mem_cons.mp ho2 with rfl | h3
      · exact Or.inr ⟨none, rfl⟩
      · exact absurd h3 (List.not_mem_nil o)
  exact ⟨hops, (new_never_nil [WithOutput none, WithTransport none] hops).1,
    (new_never_nil [WithOutput none, WithTransport none] hops).2.1, rfl⟩

end CustomResource
